import Mathlib

/-!
Verification of the `many-to-many` demo script (`src/many-to-many-demo.py`).

The script declares a small ORM domain model (Species, Breed, BreedTraits,
Shelter, Pet, Person), a database initializer, and a seed routine exercising
many-to-many relationships.  We embed the parts of it the claims are about:

* the `Person.phone` property (getter at lines 137-143, setter at 146-158),
  embedded over `List Char` (Python `str.replace(c, '')` on a single
  character is filtering that character out);
* the many-to-many join-table maintenance (`pet_person_table`, the
  `people`/`pets` backref pair) — framework behaviour, modelled from the spec;
* `init_db` (drop_all then create_all) over a model of the backing store;
* object-graph commit semantics (identity by object reference, atomicity) —
  framework behaviour, modelled from the spec;
* the straight-line control flow of the `__main__` seed routine.
-/

namespace ManyToMany

/-! ## Person.phone: validated derived attribute -/

/-- A `Person` row as the script stores it: the mapped columns.  The phone
column is the private `_phone` attribute; it is `NULL` (`none`) until the
setter first succeeds, which is why we embed it as an `Option`. -/
structure PersonRec where
  first_name : List Char
  last_name : List Char
  age : Option Int
  phone_col : Option (List Char)
deriving Repr, DecidableEq

/-- The normalization performed by the phone setter (lines 150-152):
`value.replace('-', '')` followed by `.replace(' ', '')`. -/
def stripSeparators (value : List Char) : List Char :=
  (value.filter (fun c => c ≠ '-')).filter (fun c => c ≠ ' ')

/-- The phone setter (lines 146-158) as a state transformer on the person.
It strips hyphens and spaces, raises (`some errorMessage`, state unchanged)
when the remaining length is not 10, and otherwise writes the stripped
string to the `_phone` column.  The raise happens before the write, so on
failure the record is returned as it was. -/
def setPhone (p : PersonRec) (value : List Char) : PersonRec × Option (List Char) :=
  let number := stripSeparators value
  if number.length ≠ 10 then
    (p, some ("Phone number not 10 digits long".data))
  else
    ({ p with phone_col := some number }, none)

/-- The phone getter (lines 137-143): reads `self._phone` and returns
`num[0:3] + "-" + num[3:6] + "-" + num[6:10]`.  When `_phone` was never
assigned it is `None`, and Python raises `TypeError` on `None[0:3]`; we
embed that failure as `Except.error`. -/
def getPhone (p : PersonRec) : Except (List Char) (List Char) :=
  match p.phone_col with
  | none => .error ("TypeError: NoneType object is not subscriptable".data)
  | some num =>
      .ok (num.take 3 ++ '-' :: ((num.drop 3).take 3 ++ '-' :: (num.drop 6).take 4))

/-- A fresh person as constructed before any phone assignment: the
`_phone` column starts out unset. -/
def freshPerson (fn ln : List Char) (age : Option Int) : PersonRec :=
  { first_name := fn, last_name := ln, age := age, phone_col := none }

/-! ## Many-to-many join-table maintenance (Pet - Person) -/

/-- The state of the `pet_person` association table declared at lines
100-103: rows are `(pet_id, person_id)` foreign-key pairs. -/
structure JoinState where
  joins : List (Nat × Nat)
deriving Repr, DecidableEq

/-- The `people` collection view of a pet (the `relationship` at line 121):
the person ids of the join rows carrying this pet id. -/
def petPeople (st : JoinState) (pet : Nat) : List Nat :=
  (st.joins.filter (fun r => r.1 == pet)).map (fun r => r.2)

/-- The `pets` backref view of a person (the `backref` at line 121): the
pet ids of the join rows carrying this person id. -/
def personPets (st : JoinState) (person : Nat) : List Nat :=
  (st.joins.filter (fun r => r.2 == person)).map (fun r => r.1)

/-- Modelled from the spec: the ORM's many-to-many maintenance — the code
under `src/` only declares the relationship, so the contract comes from
spec section 4.3: adding an element to one side's collection "inserts
exactly one join entry if absent". -/
def link (st : JoinState) (pet person : Nat) : JoinState :=
  if (pet, person) ∈ st.joins then st else ⟨st.joins ++ [(pet, person)]⟩

/-- Modelled from the spec: removing an element from one side's collection
"must delete the join entry" (spec section 4.3 (c)); the script performs it
as `spot.people.remove(tom)` at line 239. -/
def unlink (st : JoinState) (pet person : Nat) : JoinState :=
  ⟨st.joins.erase (pet, person)⟩

/-- Setting `people = [p1, p2, ...]` on a pet links each listed person in
order (as in the `Pet` constructor call at lines 214-219). -/
def assignPeople (st : JoinState) (pet : Nat) (persons : List Nat) : JoinState :=
  persons.foldl (fun s q => link s pet q) st

/-- Surrogate key the store assigns to Tom, the first person row. -/
def tomId : Nat := 1

/-- Surrogate key the store assigns to Sue, the second person row. -/
def sueId : Nat := 2

/-- Surrogate key the store assigns to Spot, the first pet row. -/
def spotId : Nat := 1

/-- The join-table state after `people = [tom, sue]` is set on Spot and
committed (lines 214-236), starting from the empty table left by
`init_db`. -/
def seedJoins : JoinState := assignPeople ⟨[]⟩ spotId [tomId, sueId]

/-! ## Database initializer -/

/-- The table names declared on `Base.metadata`: the six entity tables and
the two association tables. -/
def schemaTables : List String :=
  ["species", "breed", "breedtraits", "breed_breedtraits", "shelter", "pet",
   "person", "pet_person"]

/-- A row of a table: one entry per column, `none` standing for SQL
`NULL`. -/
abbrev Row := List (Option String)

/-- A model of the backing store reached through the engine: the tables
that currently exist, each with its name and its rows. -/
structure Database where
  tables : List (String × List Row)
deriving Repr, DecidableEq

/-- Modelled from the spec: `Base.metadata.drop_all(engine)` (line 170) —
the framework call "destroys any existing tables matching the schema"
(spec section 4.1); tables outside the declared schema are untouched. -/
def drop_all (db : Database) : Database :=
  ⟨db.tables.filter (fun t => decide (t.1 ∉ schemaTables))⟩

/-- Modelled from the spec: `Base.metadata.create_all(engine)` (line 171) —
the framework call "recreates them from the declared schema"
(spec section 4.1): every declared table not already present is created
empty. -/
def create_all (db : Database) : Database :=
  ⟨db.tables ++
    (schemaTables.filter (fun n => decide (n ∉ db.tables.map Prod.fst))).map
      (fun n => (n, []))⟩

/-- `init_db` (lines 165-173): "drop all tables and recreate". -/
def init_db (db : Database) : Database := create_all (drop_all db)

/-- Look up a table by name in the store, returning its rows. -/
def getTable (db : Database) (n : String) : Option (List Row) :=
  (db.tables.find? (fun t => t.1 == n)).map (fun t => t.2)

/-! ## Object-graph construction and commit -/

/-- An in-memory `Species` object as constructed by the script: its Python
object identity (a reference token distinct per constructor call) and its
`name` attribute. -/
structure SpeciesObj where
  ref : Nat
  name : String
deriving Repr, DecidableEq

/-- An in-memory `Breed` object: identity, `name`, and the `species`
relationship target. -/
structure BreedObj where
  ref : Nat
  name : String
  species : SpeciesObj
deriving Repr, DecidableEq

/-- An in-memory `Shelter` object. -/
structure ShelterObj where
  ref : Nat
  name : String
deriving Repr, DecidableEq

/-- An in-memory `Pet` object with its relationship targets. -/
structure PetObj where
  ref : Nat
  name : String
  age : Int
  adopted : Bool
  breed : BreedObj
  shelter : Option ShelterObj
deriving Repr, DecidableEq

/-- The `Species(name="Dog")` object created inline at line 217; reference
tokens are assigned in construction order. -/
def dogSpeciesObj : SpeciesObj := ⟨0, "Dog"⟩

/-- The `Breed(name="Dalmatian", ...)` object created at line 217. -/
def dalmatianObj : BreedObj := ⟨1, "Dalmatian", dogSpeciesObj⟩

/-- The `Pet` object `spot` created at lines 214-219. -/
def spotObj : PetObj := ⟨2, "Spot", 2, true, dalmatianObj, none⟩

/-- Line 224: `dog = spot.breed.species` — the same in-memory object, not
a copy. -/
def dog : SpeciesObj := spotObj.breed.species

/-- The `Shelter` object created inline at line 230. -/
def happyShelterObj : ShelterObj := ⟨3, "Happy Animal Place"⟩

/-- The `Breed(name="Golden Retriever", species=dog)` object of line 231,
reusing the `dog` species object. -/
def goldenObj : BreedObj := ⟨4, "Golden Retriever", dog⟩

/-- The `Pet` object `goldie` created at lines 227-232. -/
def goldieObj : PetObj := ⟨5, "Goldie", 9, false, goldenObj, some happyShelterObj⟩

/-- Modelled from the spec: the species rows a commit of the given pets
produces — the cascade saves each reachable species object, and "identity
is by the in-memory object reference prior to commit" (spec section 4.2),
so the same object reached twice yields a single row. -/
def speciesRows (pets : List PetObj) : List SpeciesObj :=
  (pets.map (fun p => p.breed.species)).dedup

/-- Modelled from the spec: the breed rows a commit of the given pets
produces, one per distinct reachable breed object. -/
def breedRows (pets : List PetObj) : List BreedObj :=
  (pets.map (fun p => p.breed)).dedup

/-- Modelled from the spec: the pet rows a commit of the given pets
produces, one per distinct pet object. -/
def petRows (pets : List PetObj) : List PetObj :=
  pets.dedup

/-- The NOT NULL column positions of each declared table, read off the
`nullable=False` column declarations of the schema (`id` primary keys are
store-assigned at flush and listed as required as well). -/
def requiredColumns : String → List Nat
  | "species" => [0, 1]
  | "breed" => [0, 1, 2]
  | "breedtraits" => [0, 1]
  | "shelter" => [0, 1]
  | "pet" => [0, 1, 4]
  | "person" => [0, 1, 2]
  | "pet_person" => [0, 1]
  | "breed_breedtraits" => [0, 1]
  | _ => []

/-- A staged row satisfies its table's NOT NULL constraints when every
required column position holds a value. -/
def rowOk (t : String) (r : Row) : Bool :=
  (requiredColumns t).all (fun i => (r.getD i none).isSome)

/-- Append a row to the named table of the store. -/
def insertRow (db : Database) (t : String) (r : Row) : Database :=
  ⟨db.tables.map (fun u => if u.1 == t then (u.1, u.2 ++ [r]) else u)⟩

/-- Write every staged row, in order. -/
def applyStaged (db : Database) (staged : List (String × Row)) : Database :=
  staged.foldl (fun d s => insertRow d s.1 s.2) db

/-- Modelled from the spec: `db_session.commit()` writes the staged object
graph in one transaction — "no partial graph may be persisted — either all
new rows (Species, Breed, Pet, join rows) are written or none are" (spec
section 4.2).  The store checks every staged row's constraints; on any
violation the transaction fails and the store is left as it was. -/
def commitGraph (db : Database) (staged : List (String × Row)) : Database × Bool :=
  if staged.all (fun s => rowOk s.1 s.2) then (applyStaged db staged, true)
  else (db, false)

/-- The rows staged by the script's first commit (lines 235-236): the
cascade over `spot` and `goldie` stages one species row, two breed rows,
one shelter row, two pet rows, the two person rows, and the two
`pet_person` join rows. -/
def seedStaged : List (String × Row) :=
  [("species", [some "1", some "Dog"]),
   ("breed", [some "1", some "Dalmatian", some "1"]),
   ("breed", [some "2", some "Golden Retriever", some "1"]),
   ("shelter", [some "1", some "Happy Animal Place", none]),
   ("pet", [some "1", some "Spot", some "2", some "true", some "1", none]),
   ("pet", [some "2", some "Goldie", some "9", some "false", some "2", some "1"]),
   ("person", [some "1", some "Tom", some "Smith", some "52", some "5555555555"]),
   ("person", [some "2", some "Sue", some "Johson", some "54", some "5552439988"]),
   ("pet_person", [some "1", some "1"]),
   ("pet_person", [some "1", some "2"])]

/-! ## Control flow of the seed routine -/

/-- The successive statements of the `__main__` seed routine once the
session exists (lines 195-266), in program order; `closeSession` is the
final `db_session.close()` at line 266. -/
inductive SeedStep
  | createPeople
  | createPets
  | firstCommit
  | checkAndRemove
  | createTraits
  | secondCommit
  | closeSession
deriving Repr, DecidableEq

/-- The program order of the seed routine's statements. -/
def seedSteps : List SeedStep :=
  [.createPeople, .createPets, .firstCommit, .checkAndRemove, .createTraits,
   .secondCommit, .closeSession]

/-- Execute a straight-line suffix of the routine: a raising step (a store
error at commit, a failing assertion) aborts the routine — the script has
no try/finally, so every later statement is skipped.  Returns the list of
steps that completed. -/
def runSteps (raises : SeedStep → Bool) : List SeedStep → List SeedStep
  | [] => []
  | s :: rest => if raises s then [] else s :: runSteps raises rest

/-- Whether `db_session.close()` ran in the execution where exactly the
steps selected by `raises` raise. -/
def sessionClosed (raises : SeedStep → Bool) : Bool :=
  (runSteps raises seedSteps).contains .closeSession

end ManyToMany

namespace ManyToMany

/-! ## Theorems about the phone property -/

/-- Claim C1: for every person and every input whose length after removing
all hyphens and spaces is not 10, the phone setter raises the validation
error and leaves the stored `_phone` value unchanged. -/
theorem C1_setter_rejects_and_preserves (p : PersonRec) (value : List Char)
    (h : (stripSeparators value).length ≠ 10) :
    (setPhone p value).2 = some ("Phone number not 10 digits long".data) ∧
    (setPhone p value).1 = p := by
  simp [setPhone, h]

/-- Witness for C1 at the spec's own example `"555-555-555"` (9 digits after
stripping) against a person who already stores tom's number. -/
theorem C1_witness :
    (stripSeparators "555-555-555".data).length ≠ 10 ∧
    (setPhone { freshPerson "Tom".data "Smith".data (some 52) with
        phone_col := some "5555555555".data } "555-555-555".data).2 =
      some ("Phone number not 10 digits long".data) ∧
    (setPhone { freshPerson "Tom".data "Smith".data (some 52) with
        phone_col := some "5555555555".data } "555-555-555".data).1 =
      { freshPerson "Tom".data "Smith".data (some 52) with
        phone_col := some "5555555555".data } := by
  refine ⟨by decide, ?_⟩
  exact C1_setter_rejects_and_preserves _ _ (by decide)

/-- Claim C2 is refuted by the code: the setter only checks the length after
stripping hyphens and spaces and never checks that the remaining characters
are digits.  The ten-letter input `"abc-def-ghij"` strips to
`"abcdefghij"`, passes the length test, and is stored even though it
contains non-digit characters, contradicting the setter's own docstring
("store only numeric digits") and error message. -/
theorem C2_nondigits_stored :
    (setPhone (freshPerson "Tom".data "Smith".data (some 52)) "abc-def-ghij".data).2
      = none ∧
    (setPhone (freshPerson "Tom".data "Smith".data (some 52)) "abc-def-ghij".data).1.phone_col
      = some "abcdefghij".data ∧
    ("abcdefghij".data.all Char.isDigit) = false := by
  decide

/-- Claim C3: assigning any input that strips to exactly 10 digits succeeds,
stores the stripped 10-digit string, and the subsequent read returns it
formatted in 3-3-4 grouping: three digits, a hyphen, three digits, a
hyphen, four digits, the digit blocks partitioning the stored string. -/
theorem C3_valid_input_roundtrip (p : PersonRec) (value ds : List Char)
    (hstrip : stripSeparators value = ds) (hlen : ds.length = 10)
    (hdig : ds.all Char.isDigit = true) :
    (setPhone p value).2 = none ∧
    (setPhone p value).1.phone_col = some ds ∧
    ∃ a b c : List Char,
      getPhone (setPhone p value).1 = .ok (a ++ '-' :: (b ++ '-' :: c)) ∧
      a.length = 3 ∧ b.length = 3 ∧ c.length = 4 ∧
      a ++ (b ++ c) = ds ∧ (a ++ (b ++ c)).all Char.isDigit = true := by
  subst hstrip
  refine ⟨by simp [setPhone, hlen], by simp [setPhone, hlen], ?_⟩
  refine ⟨(stripSeparators value).take 3, ((stripSeparators value).drop 3).take 3,
    ((stripSeparators value).drop 6).take 4, ?_, ?_, ?_, ?_, ?_, ?_⟩
  · simp [setPhone, hlen, getPhone]
  · simp [List.length_take, hlen]
  · simp [List.length_take, List.length_drop, hlen]
  · simp [List.length_take, List.length_drop, hlen]
  · have h1 : ((stripSeparators value).drop 6).take 4 = (stripSeparators value).drop 6 :=
      List.take_of_length_le (by simp [List.length_drop, hlen])
    have h3 : ((stripSeparators value).drop 3).drop 3 = (stripSeparators value).drop 6 := by
      rw [List.drop_drop]
    calc (stripSeparators value).take 3 ++
          (((stripSeparators value).drop 3).take 3 ++ ((stripSeparators value).drop 6).take 4)
        = (stripSeparators value).take 3 ++
          (((stripSeparators value).drop 3).take 3 ++ ((stripSeparators value).drop 3).drop 3) := by
          rw [h1, h3]
      _ = (stripSeparators value).take 3 ++ (stripSeparators value).drop 3 := by
          rw [List.take_append_drop]
      _ = stripSeparators value := List.take_append_drop 3 (stripSeparators value)
  · have h1 : ((stripSeparators value).drop 6).take 4 = (stripSeparators value).drop 6 :=
      List.take_of_length_le (by simp [List.length_drop, hlen])
    have h3 : ((stripSeparators value).drop 3).drop 3 = (stripSeparators value).drop 6 := by
      rw [List.drop_drop]
    have hsplit : (stripSeparators value).take 3 ++
        (((stripSeparators value).drop 3).take 3 ++ ((stripSeparators value).drop 6).take 4)
        = stripSeparators value := by
      rw [h1, ← h3, List.take_append_drop, List.take_append_drop]
    rw [hsplit, hdig]

/-- Witness for C3 at the script's own input for Sue, `"555 243 9988"`. -/
theorem C3_witness :
    (setPhone (freshPerson "Sue".data "Johson".data (some 54)) "555 243 9988".data).2
      = none ∧
    (setPhone (freshPerson "Sue".data "Johson".data (some 54)) "555 243 9988".data).1.phone_col
      = some "5552439988".data ∧
    ∃ a b c : List Char,
      getPhone (setPhone (freshPerson "Sue".data "Johson".data (some 54))
          "555 243 9988".data).1 = .ok (a ++ '-' :: (b ++ '-' :: c)) ∧
      a.length = 3 ∧ b.length = 3 ∧ c.length = 4 ∧
      a ++ (b ++ c) = "5552439988".data ∧
      (a ++ (b ++ c)).all Char.isDigit = true :=
  C3_valid_input_roundtrip _ _ _ (by decide) (by decide) (by decide)

/-- Claim C10: reading the phone property of a person whose `_phone` column
was never successfully assigned does not return a value — the getter slices
the unset (`None`) stored value unconditionally and fails. -/
theorem C10_getter_fails_on_unset (p : PersonRec) (h : p.phone_col = none) :
    getPhone p = .error ("TypeError: NoneType object is not subscriptable".data) := by
  simp [getPhone, h]

/-- Witness for C10 on a freshly constructed person. -/
theorem C10_witness :
    (freshPerson "Tom".data "Smith".data (some 52)).phone_col = none ∧
    getPhone (freshPerson "Tom".data "Smith".data (some 52))
      = .error ("TypeError: NoneType object is not subscriptable".data) :=
  ⟨rfl, C10_getter_fails_on_unset _ rfl⟩

/-! ## Theorems about the many-to-many relationship -/

theorem mem_petPeople (st : JoinState) (pet q : Nat) :
    q ∈ petPeople st pet ↔ (pet, q) ∈ st.joins := by
  simp only [petPeople, List.mem_map, List.mem_filter, beq_iff_eq]
  constructor
  · rintro ⟨⟨a, b⟩, ⟨hmem, hfil⟩, hq⟩
    simp only at hfil hq
    subst hfil; subst hq; exact hmem
  · intro h
    exact ⟨(pet, q), ⟨h, rfl⟩, rfl⟩

theorem mem_personPets (st : JoinState) (person q : Nat) :
    q ∈ personPets st person ↔ (q, person) ∈ st.joins := by
  simp only [personPets, List.mem_map, List.mem_filter, beq_iff_eq]
  constructor
  · rintro ⟨⟨a, b⟩, ⟨hmem, hfil⟩, hq⟩
    simp only at hfil hq
    subst hfil; subst hq; exact hmem
  · intro h
    exact ⟨(q, person), ⟨h, rfl⟩, rfl⟩

theorem mem_link (st : JoinState) (p q a b : Nat) :
    (a, b) ∈ (link st p q).joins ↔ (a, b) ∈ st.joins ∨ (a = p ∧ b = q) := by
  unfold link
  by_cases h : (p, q) ∈ st.joins
  · simp only [if_pos h]
    constructor
    · exact Or.inl
    · rintro (h' | ⟨rfl, rfl⟩)
      · exact h'
      · exact h
  · simp only [if_neg h, List.mem_append, List.mem_singleton, Prod.mk.injEq]

/-- Claim C4: after `people = [tom, sue]` is set on a pet and committed,
both persons are members of the pet's `people` collection, and the pet is
a member of each person's `pets` backref collection — from any prior
join-table state, in particular the empty one of the script. -/
theorem C4_assign_people_bidirectional (st : JoinState) (pet tom sue : Nat) :
    tom ∈ petPeople (assignPeople st pet [tom, sue]) pet ∧
    sue ∈ petPeople (assignPeople st pet [tom, sue]) pet ∧
    pet ∈ personPets (assignPeople st pet [tom, sue]) tom ∧
    pet ∈ personPets (assignPeople st pet [tom, sue]) sue := by
  have hdef : assignPeople st pet [tom, sue] = link (link st pet tom) pet sue := rfl
  have htom : (pet, tom) ∈ (assignPeople st pet [tom, sue]).joins := by
    rw [hdef, mem_link]
    exact Or.inl ((mem_link st pet tom pet tom).mpr (Or.inr ⟨rfl, rfl⟩))
  have hsue : (pet, sue) ∈ (assignPeople st pet [tom, sue]).joins := by
    rw [hdef, mem_link]
    exact Or.inr ⟨rfl, rfl⟩
  exact ⟨(mem_petPeople _ _ _).mpr htom, (mem_petPeople _ _ _).mpr hsue,
    (mem_personPets _ _ _).mpr htom, (mem_personPets _ _ _).mpr hsue⟩

/-- Claim C5: removing Tom from Spot's `people` collection, in the state
the script reaches after its first commit, removes Spot from Tom's `pets`
backref, deletes exactly one row from the `pet_person` join table, and
leaves Sue's join row intact. -/
theorem C5_remove_deletes_one_join_row :
    (unlink seedJoins spotId tomId).joins = [(spotId, sueId)] ∧
    spotId ∉ personPets (unlink seedJoins spotId tomId) tomId ∧
    tomId ∉ petPeople (unlink seedJoins spotId tomId) spotId ∧
    sueId ∈ petPeople (unlink seedJoins spotId tomId) spotId ∧
    spotId ∈ personPets (unlink seedJoins spotId tomId) sueId ∧
    (unlink seedJoins spotId tomId).joins.length + 1 = seedJoins.joins.length := by
  decide

/-! ## Theorems about the database initializer -/

theorem drop_all_not_schema (db : Database) (t : String × List Row)
    (ht : t ∈ (drop_all db).tables) : t.1 ∉ schemaTables :=
  of_decide_eq_true (List.mem_filter.mp ht).2

theorem init_db_tables (db : Database) :
    (init_db db).tables = (drop_all db).tables ++ schemaTables.map (fun n => (n, [])) := by
  show (drop_all db).tables ++ _ = _
  congr 2
  apply List.filter_eq_self.mpr
  intro n hn
  rw [decide_eq_true_iff]
  intro hmem
  rcases List.mem_map.mp hmem with ⟨t, ht, hteq⟩
  exact drop_all_not_schema db t ht (hteq ▸ hn)

theorem drop_all_init_db (db : Database) : drop_all (init_db db) = drop_all db := by
  unfold drop_all
  congr 1
  rw [init_db_tables db, List.filter_append]
  have h2 : (schemaTables.map (fun n => (n, ([] : List Row)))).filter
      (fun t => decide (t.1 ∉ schemaTables)) = [] := by
    apply List.filter_eq_nil_iff.mpr
    intro t ht
    rcases List.mem_map.mp ht with ⟨m, hm, hteq⟩
    rw [decide_eq_true_iff]
    intro hcontra
    exact hcontra (hteq ▸ hm)
  rw [h2, List.append_nil]
  show ((drop_all db).tables).filter _ = _
  apply List.filter_eq_self.mpr
  intro t ht
  exact (List.mem_filter.mp ht).2

theorem find?_fresh_table (l : List String) (n : String) (hn : n ∈ l) :
    (l.map (fun m => (m, ([] : List Row)))).find? (fun t => t.1 == n)
      = some (n, []) := by
  induction l with
  | nil => cases hn
  | cons m l ih =>
    by_cases h : m = n
    · subst h
      rw [List.map_cons, List.find?_cons_of_pos _ (by simp)]
    · rw [List.map_cons, List.find?_cons_of_neg _ (by simp [h])]
      exact ih (List.mem_of_ne_of_mem (fun he => h he.symm) hn)

/-- Claim C6: calling `init_db` twice on the same store yields the same
result as calling it once, and after a call every declared table of the
schema exists and holds no rows. -/
theorem C6_init_db_idempotent_and_empty (db : Database) (n : String)
    (hn : n ∈ schemaTables) :
    init_db (init_db db) = init_db db ∧ getTable (init_db db) n = some [] := by
  constructor
  · show create_all (drop_all (init_db db)) = init_db db
    rw [drop_all_init_db]
    rfl
  · unfold getTable
    rw [init_db_tables db, List.find?_append]
    have hnone : ((drop_all db).tables.find? (fun t => t.1 == n)) = none := by
      apply List.find?_eq_none.mpr
      intro t ht hq
      have hteq : t.1 = n := by simpa using hq
      exact drop_all_not_schema db t ht (hteq ▸ hn)
    rw [hnone, find?_fresh_table schemaTables n hn]
    rfl

/-- Witness for C6: a store holding a leftover schema row and a foreign
table, checked at the declared table `pet`. -/
theorem C6_witness :
    init_db (init_db (Database.mk [("junk", [[some "x"]]), ("pet", [[some "1", some "Spot", some "2"]])]))
      = init_db (Database.mk [("junk", [[some "x"]]), ("pet", [[some "1", some "Spot", some "2"]])]) ∧
    getTable (init_db (Database.mk [("junk", [[some "x"]]), ("pet", [[some "1", some "Spot", some "2"]])])) "pet"
      = some [] :=
  C6_init_db_idempotent_and_empty _ "pet" (by decide)

/-! ## Theorems about object-graph commit -/

/-- Claim C7: the script reuses the very Species object of Spot's breed
(`dog = spot.breed.species`, line 224) when building Goldie's breed, so
the commit of both pets produces exactly one new species row — the single
`Dog` object — together with one breed row and one pet row per pet. -/
theorem C7_species_reused_once :
    dog = spotObj.breed.species ∧
    goldieObj.breed.species = spotObj.breed.species ∧
    speciesRows [spotObj, goldieObj] = [dogSpeciesObj] ∧
    (speciesRows [spotObj, goldieObj]).length = 1 ∧
    (breedRows [spotObj, goldieObj]).length = 2 ∧
    (petRows [spotObj, goldieObj]).length = 2 := by
  decide

theorem fst_comp_insert (t t' : String) (r : Row) :
    ((fun u : String × List Row => u.1 == t) ∘
      (fun u : String × List Row => if u.1 == t' then (u.1, u.2 ++ [r]) else u))
      = (fun u : String × List Row => u.1 == t) := by
  funext u
  by_cases h : u.1 == t'
  · simp [Function.comp, h]
  · simp [Function.comp, h]

theorem getTable_insertRow_self (db : Database) (t : String) (r : Row) :
    getTable (insertRow db t r) t = (getTable db t).map (fun rs => rs ++ [r]) := by
  unfold getTable insertRow
  rw [List.find?_map, fst_comp_insert]
  cases hfind : db.tables.find? (fun u => u.1 == t) with
  | none => rfl
  | some u =>
    have hu : (u.1 == t) = true := by
      have h0 := List.find?_some hfind
      simpa using h0
    simp [Option.map, hu]

theorem getTable_insertRow_ne (db : Database) (t t' : String) (r : Row)
    (h : t ≠ t') : getTable (insertRow db t' r) t = getTable db t := by
  unfold getTable insertRow
  rw [List.find?_map, fst_comp_insert]
  cases hfind : db.tables.find? (fun u => u.1 == t) with
  | none => rfl
  | some u =>
    have hu : (u.1 == t) = true := by
      have h0 := List.find?_some hfind
      simpa using h0
    have hut : u.1 = t := by simpa using hu
    simp [Option.map, hut, h]

theorem applyStaged_cons (db : Database) (s : String × Row)
    (rest : List (String × Row)) :
    applyStaged db (s :: rest) = applyStaged (insertRow db s.1 s.2) rest := rfl

theorem getTable_applyStaged_mono (staged : List (String × Row)) :
    ∀ (db : Database) (t : String) (r0 : Row) (rs : List Row),
    getTable db t = some rs → r0 ∈ rs →
    ∃ rs', getTable (applyStaged db staged) t = some rs' ∧ r0 ∈ rs' := by
  induction staged with
  | nil => exact fun db t r0 rs hget hmem => ⟨rs, hget, hmem⟩
  | cons s rest ih =>
    intro db t r0 rs hget hmem
    rw [applyStaged_cons]
    by_cases h : t = s.1
    · have hget' : getTable db s.1 = some rs := by
        rw [← h]
        exact hget
      have h1 : getTable (insertRow db s.1 s.2) s.1 = some (rs ++ [s.2]) := by
        rw [getTable_insertRow_self, hget']
        rfl
      rw [h]
      exact ih _ _ _ _ h1 (List.mem_append_left _ hmem)
    · have h1 : getTable (insertRow db s.1 s.2) t = some rs := by
        rw [getTable_insertRow_ne _ _ _ _ h, hget]
      exact ih _ _ _ _ h1 hmem

theorem mem_getTable_applyStaged (staged : List (String × Row)) :
    ∀ (db : Database) (t : String) (r : Row) (rs : List Row),
    (t, r) ∈ staged → getTable db t = some rs →
    ∃ rs', getTable (applyStaged db staged) t = some rs' ∧ r ∈ rs' := by
  induction staged with
  | nil => intro db t r rs hmem; cases hmem
  | cons s rest ih =>
    intro db t r rs hmem hget
    rw [applyStaged_cons]
    rcases List.mem_cons.mp hmem with heq | hmem'
    · have heq' : s = (t, r) := heq.symm
      subst heq'
      have h1 : getTable (insertRow db t r) t = some (rs ++ [r]) := by
        rw [getTable_insertRow_self, hget]
        rfl
      exact getTable_applyStaged_mono rest _ _ _ _ h1 (by simp)
    · by_cases h : t = s.1
      · have hget' : getTable db s.1 = some rs := by
          rw [← h]
          exact hget
        have h1 : getTable (insertRow db s.1 s.2) s.1 = some (rs ++ [s.2]) := by
          rw [getTable_insertRow_self, hget']
          rfl
        have hmem'' : (s.1, r) ∈ rest := by
          rw [← h]
          exact hmem'
        have hres := ih (insertRow db s.1 s.2) s.1 r (rs ++ [s.2]) hmem'' h1
        rw [h]
        exact hres
      · have h1 : getTable (insertRow db s.1 s.2) t = some rs := by
          rw [getTable_insertRow_ne _ _ _ _ h, hget]
        exact ih _ _ _ _ hmem' h1

/-- Claim C8: committing a staged object graph is atomic: if the commit
fails, the store is exactly as before; if it succeeds, every staged row —
species, breed, pet and join rows alike — is present in its table. -/
theorem C8_commit_atomic (db : Database) (staged : List (String × Row))
    (t : String) (r : Row) (rs : List Row)
    (hmem : (t, r) ∈ staged) (hget : getTable db t = some rs) :
    ((commitGraph db staged).2 = false → (commitGraph db staged).1 = db) ∧
    ((commitGraph db staged).2 = true →
      ∃ rs', getTable (commitGraph db staged).1 t = some rs' ∧ r ∈ rs') := by
  unfold commitGraph
  by_cases hall : staged.all (fun s => rowOk s.1 s.2)
  · rw [if_pos hall]
    refine ⟨fun hc => absurd hc (by simp), fun hc => ?_⟩
    exact mem_getTable_applyStaged staged db t r rs hmem hget
  · rw [if_neg hall]
    exact ⟨fun hc => rfl, fun hc => absurd hc (by simp)⟩

/-- Witness for C8: the script's first commit, staged against the freshly
initialized store, checked at the staged species row. -/
theorem C8_witness :
    ((commitGraph (init_db ⟨[]⟩) seedStaged).2 = false →
      (commitGraph (init_db ⟨[]⟩) seedStaged).1 = init_db ⟨[]⟩) ∧
    ((commitGraph (init_db ⟨[]⟩) seedStaged).2 = true →
      ∃ rs', getTable (commitGraph (init_db ⟨[]⟩) seedStaged).1 "species" = some rs' ∧
        ([some "1", some "Dog"] : Row) ∈ rs') :=
  C8_commit_atomic _ seedStaged "species" [some "1", some "Dog"] []
    (by decide) (by decide)

/-! ## Theorems about the seed routine's control flow -/

/-- Claim C9 fails on the code: the seed routine has no try/finally, so in
the execution where the first `db_session.commit()` raises a store-level
error the routine ends by propagation and `db_session.close()` never
runs. -/
theorem C9_counterexample_commit_failure :
    sessionClosed (fun s => decide (s = SeedStep.firstCommit)) = false := by
  decide

/-- Claim C9 as amended: in every execution in which no step raises — in
particular the script's actual run — the single session acquired at the
start is closed before the routine ends. -/
theorem C9_close_on_success (raises : SeedStep → Bool)
    (h : ∀ s, raises s = false) : sessionClosed raises = true := by
  have hrun : runSteps raises seedSteps = seedSteps := by
    simp [seedSteps, runSteps, h]
  unfold sessionClosed
  rw [hrun]
  decide

/-- Witness for the amended C9 at the raise-free execution. -/
theorem C9_witness : sessionClosed (fun _ => false) = true :=
  C9_close_on_success _ (fun _ => rfl)

end ManyToMany
